import Mathlib

/-!
Verification of the Google Gemini provider of the AI-Dock LLM gateway
(src/Back/app/services/llm/providers/google.py), a shallow embedding of the
provider into Lean. Pure translation steps (role mapping, payload
construction, response decoding, error-code mapping, streaming-chunk
decoding, cost estimation) become Lean functions over a small JSON model;
the HTTP layer is represented by the decoded outcome the provider inspects
(status code, decoded body, timeout or network failure), and the streaming
body by the list of JSONL lines the provider iterates over. The shared
collaborators that live outside the provider file (the data model in
models.py, the exception taxonomy in exceptions.py, the configuration
object in llm_config.py and the cost hook in base.py) are modelled from
the specification where marked.
-/

set_option autoImplicit false

/-- A JSON value, as decoded from a vendor payload or supplied through the
open parameter maps of the request and configuration. Numbers are modelled
as rationals. -/
inductive JValue : Type where
  | jnull : JValue
  | jbool : Bool → JValue
  | jnum : ℚ → JValue
  | jstr : String → JValue
  | jarr : List JValue → JValue
  | jobj : List (String × JValue) → JValue

/-- A JSON object: an ordered association list of string keys, as a Python
dict with its insertion order. -/
abbrev JObj := List (String × JValue)

/-- First-match lookup of a key in a JSON object (Python dict indexing and
dict.get; the dicts the program builds carry each key once). -/
def lookupJ : JObj → String → Option JValue
  | [], _ => none
  | (k0, v0) :: rest, k => if k0 = k then some v0 else lookupJ rest k

/-- Setting one key of a JSON object, as one step of Python dict.update: an
existing key keeps its position and takes the new value, a fresh key is
appended at the end. -/
def setKey : JObj → String → JValue → JObj
  | [], k, v => [(k, v)]
  | (k0, v0) :: rest, k, v =>
      if k0 = k then (k0, v) :: rest else (k0, v0) :: setKey rest k v

/-- Python dict.update: every key of the second object is written into the
first, in order, so a key occurring in both takes the value given by the second object. -/
def updateObj (m : JObj) (extra : JObj) : JObj :=
  extra.foldl (fun acc kv => setKey acc kv.1 kv.2) m

/-- Last-match lookup: the value the key would have in a Python dict built
by inserting the pairs of the list in order. -/
def lookupLast : JObj → String → Option JValue
  | [], _ => none
  | (k0, v0) :: rest, k =>
      match lookupLast rest k with
      | some v => some v
      | none => if k0 = k then some v0 else none

/-- Modelled from the spec: the shared three-role message model of
models.py (not among the sources), §3: role is enumerated system, user or
assistant. -/
inductive ChatRole : Type where
  | system : ChatRole
  | user : ChatRole
  | assistant : ChatRole
deriving DecidableEq

/-- Modelled from the spec: ChatMessage of models.py, §3: one turn, a role
and a text content. -/
structure ChatMessage : Type where
  role : ChatRole
  content : String
deriving DecidableEq

/-- Modelled from the spec: the default generation parameters held by the
provider configuration (llm_config.py, not among the sources), §3 and §4.2:
a mapping that may carry a default temperature and a default max_tokens. -/
structure ModelParameters : Type where
  temperature : Option ℚ
  max_tokens : Option Int
deriving DecidableEq

/-- Modelled from the spec: the provider configuration collaborator
(llm_config.py, not among the sources), §3: encrypted api key (the empty
string standing for a missing, falsy key), api endpoint, default model,
default model parameters, the cost-tracking flag and the per-token input
and output prices of the pricing table. -/
structure LLMConfig : Type where
  api_key_encrypted : String
  api_endpoint : String
  default_model : String
  model_parameters : ModelParameters
  has_cost_tracking : Bool
  price_input : ℚ
  price_output : ℚ
deriving DecidableEq

/-- Modelled from the spec: ChatRequest of models.py, §3: ordered messages,
optional model override, optional temperature and max_tokens, and the open
extra_params mapping merged verbatim into the outgoing payload. -/
structure ChatRequest : Type where
  messages : List ChatMessage
  model : Option String
  temperature : Option ℚ
  max_tokens : Option Int
  extra_params : JObj

/-- A usage mapping as the provider builds it: a Python dict from the keys
input_tokens, output_tokens, total_tokens to counts. The empty list is the
empty dict. -/
abbrev Usage := List (String × Nat)

/-- dict.get with default 0 on a usage mapping. -/
def usageGet : Usage → String → Nat
  | [], _ => 0
  | (k0, n) :: rest, k => if k0 = k then n else usageGet rest k

/-- Modelled from the spec: the shared exception taxonomy of exceptions.py
(not among the sources), §4.5: configuration errors, quota errors, and the
generic provider error carrying provider name and status code when given. -/
inductive LLMError : Type where
  | configurationError : String → LLMError
  | quotaExceededError : String → LLMError
  | providerError : String → Option String → Option Nat → LLMError

/-- One part of a Gemini content: the optional text field
(part.get with default gives the empty string when absent). -/
structure GeminiPart : Type where
  text : Option String
deriving DecidableEq

/-- The content field of a Gemini candidate: its parts list
(content.get with default gives the empty list when absent). -/
structure GeminiContent : Type where
  parts : List GeminiPart
deriving DecidableEq

/-- One Gemini candidate: content is none when the key is absent or its
value is falsy (the empty object), and finishReason is some value exactly
when the key is present. -/
structure GeminiCandidate : Type where
  content : Option GeminiContent
  finishReason : Option String
deriving DecidableEq

/-- The usageMetadata object of a Gemini response; each count is none when
its key is absent, read with default 0. -/
structure GeminiUsageMetadata : Type where
  promptTokenCount : Option Nat
  candidatesTokenCount : Option Nat
  totalTokenCount : Option Nat
deriving DecidableEq

/-- A decoded Gemini response body, unary or one streaming JSONL chunk:
candidates (empty when the key is absent) and usageMetadata (none when the
key is absent or its value is the falsy empty object). -/
structure GeminiBody : Type where
  candidates : List GeminiCandidate
  usageMetadata : Option GeminiUsageMetadata
deriving DecidableEq

/-- google.py 26-36, validate_configuration: a falsy api_key_encrypted,
then a falsy api_endpoint, each raise LLMProviderError with the literal
message; some e is the raised error, none means validation passes. -/
def validate_configuration (cfg : LLMConfig) : Option LLMError :=
  if cfg.api_key_encrypted = "" then
    some (LLMError.providerError
      "❌ Google AI Studio API key is not configured. Please set up your API key in the configuration."
      none none)
  else if cfg.api_endpoint = "" then
    some (LLMError.providerError "❌ Google API endpoint is not configured." none none)
  else none

/-- google.py 66 and 380: assistant maps to the wire role model, every
other role (user and system) to user. -/
def geminiRole (r : ChatRole) : String :=
  if r = ChatRole.assistant then "model" else "user"

/-- google.py 67-70 and 381-384: one message as a Gemini content object,
parts holding the single text part, then the mapped role. -/
def messageToContent (m : ChatMessage) : JValue :=
  JValue.jobj
    [("parts", JValue.jarr [JValue.jobj [("text", JValue.jstr m.content)]]),
     ("role", JValue.jstr (geminiRole m.role))]

/-- google.py 63-70 and 378-384: the contents list, one entry per message
in order. -/
def contentsOf (msgs : List ChatMessage) : List JValue :=
  msgs.map messageToContent

/-- google.py 78-88 and 392-402: the generationConfig dict. temperature
comes from the request when not None, else from the model_parameters of
the configuration when the mapping is truthy and carries the key; likewise
maxOutputTokens from max_tokens; a key with no source is left out. -/
def genConfigOf (req : ChatRequest) (cfg : LLMConfig) : JObj :=
  (match req.temperature with
   | some t => [("temperature", JValue.jnum t)]
   | none =>
     match cfg.model_parameters.temperature with
     | some t => [("temperature", JValue.jnum t)]
     | none => []) ++
  (match req.max_tokens with
   | some m => [("maxOutputTokens", JValue.jnum (m : ℚ))]
   | none =>
     match cfg.model_parameters.max_tokens with
     | some m => [("maxOutputTokens", JValue.jnum (m : ℚ))]
     | none => [])

/-- google.py 72-91 and 386-405: the payload before extra parameters:
contents, then generationConfig only when that dict is truthy (non-empty). -/
def buildPayloadBase (req : ChatRequest) (cfg : LLMConfig) : JObj :=
  if (genConfigOf req cfg).isEmpty then
    [("contents", JValue.jarr (contentsOf req.messages))]
  else
    [("contents", JValue.jarr (contentsOf req.messages)),
     ("generationConfig", JValue.jobj (genConfigOf req cfg))]

/-- google.py 94 and 407: payload.update with the extra_params of the request,
merged last. -/
def buildPayload (req : ChatRequest) (cfg : LLMConfig) : JObj :=
  updateObj (buildPayloadBase req cfg) req.extra_params

/-- google.py 60 and 375: request.model or the configuration default; the
Python or treats the empty string as falsy. -/
def modelOf (req : ChatRequest) (cfg : LLMConfig) : String :=
  match req.model with
  | some m => if m = "" then cfg.default_model else m
  | none => cfg.default_model

/-- google.py 143-148 and 443-447: the text of the first part of the first candidate,
with the empty string on every falsy step (no candidates, falsy content,
empty parts, absent text). -/
def extractText (body : GeminiBody) : String :=
  match body.candidates with
  | [] => ""
  | c :: _ =>
    match c.content with
    | none => ""
    | some ct =>
      match ct.parts with
      | [] => ""
      | p :: _ => p.text.getD ""

/-- google.py 157-161 and 468-472: the three-key usage dict read from a
truthy usageMetadata, each count defaulting to 0. -/
def usageFromMetadata (m : GeminiUsageMetadata) : Usage :=
  [("input_tokens", m.promptTokenCount.getD 0),
   ("output_tokens", m.candidatesTokenCount.getD 0),
   ("total_tokens", m.totalTokenCount.getD 0)]

/-- google.py 154-161: usage stays the empty dict when usageMetadata is
absent or falsy, and is the three-key dict otherwise. -/
def usageOf (body : GeminiBody) : Usage :=
  match body.usageMetadata with
  | none => []
  | some m => usageFromMetadata m

/-- Modelled from the spec: calculate_actual_cost of the provider base
class (base.py, not among the sources), §4.3: cost is the usage counts
multiplied by the per-token prices of the configuration, and null when cost
tracking is disabled; the counts are read from the usage dict with
default 0. -/
def calculate_actual_cost (cfg : LLMConfig) (usage : Usage) : Option ℚ :=
  if cfg.has_cost_tracking then
    some ((usageGet usage "input_tokens" : ℚ) * cfg.price_input
      + (usageGet usage "output_tokens" : ℚ) * cfg.price_output)
  else none

/-- Modelled from the spec: ChatResponse of models.py (not among the
sources), §3: content, model, provider, the usage mapping, nullable cost,
response time and the retained raw vendor payload, stored as given. -/
structure ChatResponse : Type where
  content : String
  model : String
  provider : String
  usage : Usage
  cost : Option ℚ
  response_time_ms : Nat
  raw_response : GeminiBody

/-- google.py 138-174, process_success_response: decode content and usage
from the body, price the usage, and assemble the ChatResponse. -/
def process_success_response (cfg : LLMConfig) (body : GeminiBody) (rtms : Nat)
    (model : String) : ChatResponse :=
  ⟨extractText body, model, "Google", usageOf body,
    calculate_actual_cost cfg (usageOf body), rtms, body⟩

/-- The error object of a Gemini error payload: the message, code and
status fields of data error, each none when absent. -/
structure GoogleErrorInfo : Type where
  message : Option String
  code : Option String
  status : Option String

/-- The decoded form of a non-200 response body as handle_error_response
reads it: notJson when response.json() raises (carrying response.text),
json none when the body parses but the error key is absent, json some
when the error object is there. -/
inductive ErrorParse : Type where
  | notJson : String → ErrorParse
  | json : Option GoogleErrorInfo → ErrorParse

/-- google.py 178-189: the parsed error message, falling back to
HTTP status colon raw text when the body is not valid JSON, and to
Unknown error when the error object or its message is absent. -/
def errorMessageOf (status : Nat) (body : ErrorParse) : String :=
  match body with
  | ErrorParse.notJson text => "HTTP " ++ toString status ++ ": " ++ text
  | ErrorParse.json none => "Unknown error"
  | ErrorParse.json (some e) => e.message.getD "Unknown error"

/-- google.py 181 and 190: the parsed error code, http_error on the
non-JSON fallback path, else defaulting to unknown. -/
def errorCodeOf (body : ErrorParse) : String :=
  match body with
  | ErrorParse.notJson _ => "http_error"
  | ErrorParse.json none => "unknown"
  | ErrorParse.json (some e) => e.code.getD "unknown"

/-- google.py 176-213, handle_error_response: 401 and 403 raise
LLMConfigurationError, 429 raises LLMQuotaExceededError, 400 and every
other status raise LLMProviderError, each with its literal detailed
message built around the parsed (or fallback) error message. -/
def handle_error_response (status : Nat) (body : ErrorParse) : LLMError :=
  let errorMessage := errorMessageOf status body
  let errorCode := errorCodeOf body
  if status = 401 ∨ status = 403 then
    LLMError.configurationError
      ("Invalid API key or insufficient permissions. Please check your Google AI Studio API key. Error: "
        ++ errorMessage)
  else if status = 429 then
    LLMError.quotaExceededError
      ("Google AI Studio rate limit exceeded. Free tier has very low limits (15 RPM). Consider upgrading to paid tier or wait before retrying. Error: "
        ++ errorMessage)
  else if status = 400 then
    LLMError.providerError
      ("Bad request to Google API. Check model name and parameters. Error: " ++ errorMessage)
      (some "Google") (some 400)
  else
    LLMError.providerError
      ("Google API error (status: " ++ toString status ++ ", code: " ++ errorCode ++ "): "
        ++ errorMessage)
      (some "Google") (some status)

/-- What the one HTTP call of send_chat_request comes back as, after JSON
decoding: a 200 with a decoded body, a non-200 status with the error body
as handle_error_response reads it, a timeout, or a transport error. -/
inductive HttpOutcome : Type where
  | success : GeminiBody → HttpOutcome
  | httpError : Nat → ErrorParse → HttpOutcome
  | timeout : HttpOutcome
  | networkError : String → HttpOutcome

/-- google.py 38-136, send_chat_request: validate the configuration first
(before the HTTP client is even created), then return the processed
response on 200, the mapped error on any other status, and the provider
error on timeout or transport failure. rtms is the measured wall-clock
time of the call. -/
def send_chat_request (cfg : LLMConfig) (req : ChatRequest) (outcome : HttpOutcome)
    (rtms : Nat) : Except LLMError ChatResponse :=
  match validate_configuration cfg with
  | some e => Except.error e
  | none =>
    match outcome with
    | HttpOutcome.success body =>
        Except.ok (process_success_response cfg body rtms (modelOf req cfg))
    | HttpOutcome.httpError status body => Except.error (handle_error_response status body)
    | HttpOutcome.timeout =>
        Except.error (LLMError.providerError "Request timed out" (some "Google") none)
    | HttpOutcome.networkError s =>
        Except.error (LLMError.providerError ("Network error: " ++ s) (some "Google") none)

/-- One entry of the model-listing response of get_available_models: the
model name and its supportedGenerationMethods. -/
structure GoogleModelInfo : Type where
  name : String
  supportedGenerationMethods : List String

/-- google.py 282-297: keep each model whose name starts with the models/
prefix and whose methods include generateContent, stripping the prefix, in
response order. -/
def extractModels (ms : List GoogleModelInfo) : List String :=
  ms.filterMap fun m =>
    if m.name.startsWith "models/" && m.supportedGenerationMethods.contains "generateContent"
    then some (m.name.replace "models/" "")
    else none

/-- The decoded outcome of the model-listing HTTP call. -/
inductive ModelsOutcome : Type where
  | success : List GoogleModelInfo → ModelsOutcome
  | httpError : Nat → ErrorParse → ModelsOutcome
  | timeout : ModelsOutcome
  | networkError : String → ModelsOutcome

/-- google.py 259-312, get_available_models: the same configuration
validation as send_chat_request, then the extracted model list on 200, the
mapped error on any other status, and the provider error on timeout or
transport failure. -/
def get_available_models (cfg : LLMConfig) (outcome : ModelsOutcome) :
    Except LLMError (List String) :=
  match validate_configuration cfg with
  | some e => Except.error e
  | none =>
    match outcome with
    | ModelsOutcome.success ms => Except.ok (extractModels ms)
    | ModelsOutcome.httpError status body => Except.error (handle_error_response status body)
    | ModelsOutcome.timeout =>
        Except.error (LLMError.providerError "Request timed out while fetching models"
          (some "Google") none)
    | ModelsOutcome.networkError s =>
        Except.error (LLMError.providerError ("Network error while fetching models: " ++ s)
          (some "Google") none)

/-- Modelled from the spec: calculate_request_cost of the configuration
(llm_config.py, not among the sources), §2 and §4.3: the pricing lookup
multiplies token counts by the per-token input and output prices. -/
def calculate_request_cost (cfg : LLMConfig) (inputTokens outputTokens : Int) : ℚ :=
  (inputTokens : ℚ) * cfg.price_input + (outputTokens : ℚ) * cfg.price_output

/-- google.py 254: request.max_tokens or the configured default or 1000;
the Python or treats 0 as falsy and then falls through to the default. -/
def effectiveMaxTokens (cfg : LLMConfig) (req : ChatRequest) : Int :=
  match req.max_tokens with
  | some m => if m = 0 then cfg.model_parameters.max_tokens.getD 1000 else m
  | none => cfg.model_parameters.max_tokens.getD 1000

/-- google.py 243-257, estimate_cost: None without cost tracking; else
input tokens are the summed message characters divided by 4, output tokens
the smaller of the effective max-token budget and half the input estimate,
priced through calculate_request_cost. The divisions are Python floor
divisions of non-negative integers, taken here on Nat. -/
def estimate_cost (cfg : LLMConfig) (req : ChatRequest) : Option ℚ :=
  if cfg.has_cost_tracking = false then none
  else
    let totalChars : Nat := (req.messages.map fun m => m.content.length).sum
    let estimatedInputTokens : Nat := totalChars / 4
    let estimatedOutputTokens : Int :=
      min (effectiveMaxTokens cfg req) ((estimatedInputTokens / 2 : Nat) : Int)
    some (calculate_request_cost cfg (estimatedInputTokens : Int) estimatedOutputTokens)

/-- One line of the streaming JSONL body, as the loop of
stream_chat_request sees it: blank (falsy after strip, skipped before
parsing), malformed (json.loads raises and the line is skipped), or a
decoded chunk body. -/
inductive RawLine : Type where
  | blank : RawLine
  | malformed : RawLine
  | valid : GeminiBody → RawLine

/-- google.py 461: the chunk closes the stream when it has a candidate
whose first entry carries the finishReason key. -/
def isFinishChunk (body : GeminiBody) : Bool :=
  match body.candidates with
  | [] => false
  | c :: _ => c.finishReason.isSome

/-- A streaming chunk as yielded: the delta chunks carry only content,
is_final, model and provider; the terminal chunk also carries usage, cost
and response_time_ms (none models an absent key). -/
structure StreamChunk : Type where
  content : String
  is_final : Bool
  model : String
  provider : String
  usage : Option Usage
  cost : Option (Option ℚ)
  response_time_ms : Option Nat
deriving DecidableEq

/-- google.py 453-458: a non-terminal content chunk. -/
def deltaChunk (d : String) (model : String) : StreamChunk :=
  ⟨d, false, model, "Google", none, none, none⟩

/-- google.py 348-350: the character length contributed by one part of one
content entry of the payload: the length of its text string, with the
absent key giving the empty string. Built payloads only ever put strings
there. -/
def partTextLength (part : JValue) : Nat :=
  match part with
  | JValue.jobj fields =>
    match lookupJ fields "text" with
    | some (JValue.jstr s) => s.length
    | _ => 0
  | _ => 0

/-- google.py 348-350: the characters of one entry of the payload contents
list, summed over its parts (absent parts give the empty list). -/
def contentItemLength (item : JValue) : Nat :=
  match item with
  | JValue.jobj fields =>
    match lookupJ fields "parts" with
    | some (JValue.jarr ps) => (ps.map partTextLength).sum
    | _ => 0
  | _ => 0

/-- google.py 346-352: the input characters of the payload, summed over
payload contents (absent giving the empty list). -/
def contentsTextLength (payload : JObj) : Nat :=
  match lookupJ payload "contents" with
  | some (JValue.jarr items) => (items.map contentItemLength).sum
  | _ => 0

/-- google.py 335-361, estimate_usage_from_content: token estimates from
character counts at 4 characters per token, each at least 1, as a
three-key usage dict. -/
def estimate_usage_from_content (content : String) (payload : JObj) : Usage :=
  let estimatedInputTokens : Nat := max 1 (contentsTextLength payload / 4)
  let estimatedOutputTokens : Nat := max 1 (content.length / 4)
  [("input_tokens", estimatedInputTokens),
   ("output_tokens", estimatedOutputTokens),
   ("total_tokens", estimatedInputTokens + estimatedOutputTokens)]

/-- google.py 460-487: the terminal chunk for the closing body: usage from
its truthy usageMetadata, else estimated from the accumulated content and
the payload; cost priced on that usage; empty content; response time. -/
def finalChunkOf (cfg : LLMConfig) (model : String) (payload : JObj) (rtms : Nat)
    (body : GeminiBody) (acc : String) : StreamChunk :=
  let finalUsage :=
    match body.usageMetadata with
    | some m => usageFromMetadata m
    | none => estimate_usage_from_content acc payload
  ⟨"", true, model, "Google", some finalUsage,
    some (calculate_actual_cost cfg finalUsage), some rtms⟩

/-- google.py 433-495, the line loop of stream_chat_request: blank and
malformed lines are skipped; a decoded chunk first yields its non-empty
text delta (accumulating it), then, if it carries a finishReason, yields
the terminal chunk and breaks out of the loop. -/
def streamLoop (cfg : LLMConfig) (model : String) (payload : JObj) (rtms : Nat) :
    List RawLine → String → List StreamChunk
  | [], _ => []
  | RawLine.blank :: rest, acc => streamLoop cfg model payload rtms rest acc
  | RawLine.malformed :: rest, acc => streamLoop cfg model payload rtms rest acc
  | RawLine.valid body :: rest, acc =>
      let d := extractText body
      let emitted := if d = "" then [] else [deltaChunk d model]
      let acc2 := if d = "" then acc else acc ++ d
      if isFinishChunk body then
        emitted ++ [finalChunkOf cfg model payload rtms body acc2]
      else
        emitted ++ streamLoop cfg model payload rtms rest acc2

/-- google.py 363-495, stream_chat_request on a 200 streaming response:
the same validation and payload construction as send_chat_request, then
the chunk sequence the line loop yields from the JSONL lines, starting
from the empty accumulator. -/
def stream_chat_request (cfg : LLMConfig) (req : ChatRequest) (lines : List RawLine)
    (rtms : Nat) : Except LLMError (List StreamChunk) :=
  match validate_configuration cfg with
  | some e => Except.error e
  | none =>
      Except.ok (streamLoop cfg (modelOf req cfg) (buildPayload req cfg) rtms lines "")

/-- True when some line of the streaming body decodes to a chunk carrying
a finishReason: the stream completes normally. -/
def hasFinishLine (lines : List RawLine) : Bool :=
  lines.any fun l =>
    match l with
    | RawLine.valid b => isFinishChunk b
    | _ => false

/-- The concatenation, in emission order, of the content of the
non-terminal chunks of a chunk sequence. -/
def nonFinalContent : List StreamChunk → String
  | [] => ""
  | c :: rest =>
      if c.is_final then nonFinalContent rest else c.content ++ nonFinalContent rest

/-- The text the stream accumulates: the concatenated deltas of the
decoded lines up to and including the first finish line. -/
def streamTextOf : List RawLine → String
  | [] => ""
  | RawLine.blank :: rest => streamTextOf rest
  | RawLine.malformed :: rest => streamTextOf rest
  | RawLine.valid body :: rest =>
      if isFinishChunk body then extractText body
      else extractText body ++ streamTextOf rest

/-- The role field of one entry of the contents list. -/
def contentRole (j : JValue) : Option JValue :=
  match j with
  | JValue.jobj fields => lookupJ fields "role"
  | _ => none

/-- A configuration with no API key set: api_key_encrypted is the falsy
empty string. -/
def cfgNoKey : LLMConfig :=
  ⟨"", "https://generativelanguage.googleapis.com", "gemini-2.5-flash",
    ⟨none, none⟩, true, 0, 0⟩

/-- A fully configured Google configuration with cost tracking on. -/
def cfgTracked : LLMConfig :=
  ⟨"encrypted-key", "https://generativelanguage.googleapis.com", "gemini-2.5-flash",
    ⟨none, none⟩, true, 1 / 1000, 3 / 1000⟩

/-- A minimal one-message request. -/
def reqHello : ChatRequest :=
  ⟨[⟨ChatRole.user, "Hello!"⟩], none, none, none, []⟩

/-- The error validate_configuration raises for a missing API key. -/
def apiKeyMissingError : LLMError :=
  LLMError.providerError
    "❌ Google AI Studio API key is not configured. Please set up your API key in the configuration."
    none none

/-- A candidate holding one text part and an optional finishReason. -/
def candidateOf (text : String) (finish : Option String) : GeminiCandidate :=
  ⟨some ⟨[⟨some text⟩]⟩, finish⟩

/-- A mocked 200 body with content but no usageMetadata field. -/
def bodyNoUsage : GeminiBody :=
  ⟨[candidateOf "Hello there." none], none⟩

/-- A mocked unary 200 body whose text is the word Hello. -/
def bodyHello : GeminiBody :=
  ⟨[candidateOf "Hello" none], none⟩

/-- A streaming line carrying the delta Hel. -/
def lineHel : RawLine :=
  RawLine.valid ⟨[candidateOf "Hel" none], none⟩

/-- A streaming finish line carrying the delta lo and finishReason STOP. -/
def lineLoFinish : RawLine :=
  RawLine.valid ⟨[candidateOf "lo" (some "STOP")], none⟩

/-- A configuration with cost tracking on and a positive output price,
for exercising estimate_cost. -/
def cfgOutPrice : LLMConfig :=
  ⟨"encrypted-key", "https://generativelanguage.googleapis.com", "gemini-2.5-flash",
    ⟨none, none⟩, true, 0, 1 / 1000⟩

/-- A request with an empty message and a negative max_tokens. -/
def reqNegMax : ChatRequest :=
  ⟨[⟨ChatRole.user, ""⟩], none, none, some (-4), []⟩

/-- A non-finish chunk body with the delta Hel. -/
def bodyHel : GeminiBody :=
  ⟨[candidateOf "Hel" none], none⟩

/-- A non-finish chunk body with the delta lo. -/
def bodyLo : GeminiBody :=
  ⟨[candidateOf "lo" none], none⟩

/-- A mocked streaming body: a delta line, a blank line, a malformed line,
then a finish line with a final delta. -/
def linesHello : List RawLine :=
  [lineHel, RawLine.blank, RawLine.malformed, lineLoFinish]

theorem lookupJ_setKey : ∀ (m : JObj) (k : String) (v : JValue) (q : String),
    lookupJ (setKey m k v) q = if k = q then some v else lookupJ m q := by
  intro m k v
  induction m with
  | nil =>
    intro q
    by_cases h : k = q <;> simp [setKey, lookupJ, h]
  | cons kv rest ih =>
    intro q
    obtain ⟨k0, v0⟩ := kv
    by_cases h0 : k0 = k
    · subst h0
      by_cases h : k0 = q <;> simp [setKey, lookupJ, h]
    · by_cases h1 : k0 = q
      · subst h1
        have hk : ¬ k = k0 := fun he => h0 he.symm
        simp [setKey, lookupJ, h0, hk]
      · by_cases h2 : k = q
        · subst h2
          simp [setKey, lookupJ, h0, h1, ih]
        · simp [setKey, lookupJ, h0, h1, h2, ih]

theorem lookupJ_updateObj : ∀ (extra m : JObj) (k : String),
    lookupJ (updateObj m extra) k = (lookupLast extra k <|> lookupJ m k) := by
  intro extra
  induction extra with
  | nil => intro m k; simp [updateObj, lookupLast]
  | cons kv rest ih =>
    intro m k
    obtain ⟨k0, v0⟩ := kv
    have hu : updateObj m ((k0, v0) :: rest) = updateObj (setKey m k0 v0) rest := rfl
    rw [hu, ih]
    cases hrest : lookupLast rest k with
    | some v => simp [lookupLast, hrest]
    | none =>
      by_cases h : k0 = k <;> simp [lookupLast, hrest, lookupJ_setKey, h]

/-- Claim C1: for every ChatRequest, a missing API key (or endpoint) makes
send_chat_request, stream_chat_request and get_available_models fail
before and independent of any network outcome — but the raised error is
the generic LLMProviderError, not the LLMConfigurationError the claim (and
the docstring of get_available_models, google.py lines 266-268) states:
with no API key configured, validation yields exactly that provider error
for every outcome, and that error is no configurationError. -/
theorem c1_missing_key_raises_provider_error :
    validate_configuration cfgNoKey = some apiKeyMissingError
    ∧ (∀ (outcome : HttpOutcome) (rtms : Nat),
        send_chat_request cfgNoKey reqHello outcome rtms = Except.error apiKeyMissingError)
    ∧ (∀ (lines : List RawLine) (rtms : Nat),
        stream_chat_request cfgNoKey reqHello lines rtms = Except.error apiKeyMissingError)
    ∧ (∀ outcome : ModelsOutcome,
        get_available_models cfgNoKey outcome = Except.error apiKeyMissingError)
    ∧ ∀ m : String, apiKeyMissingError ≠ LLMError.configurationError m := by
  refine ⟨rfl, fun outcome rtms => rfl, fun lines rtms => rfl, fun outcome => rfl, ?_⟩
  intro m h
  exact LLMError.noConfusion h

/-- Claim C2, counterexample: for the mocked 200 body with no
usage-metadata field (and a cost-tracking configuration), the resulting
usage mapping is the empty dict, not the three-key zero dict the claim
states. -/
theorem c2_counterexample :
    (process_success_response cfgTracked bodyNoUsage 5 "gemini-2.5-flash").usage
      ≠ [("input_tokens", 0), ("output_tokens", 0), ("total_tokens", 0)] := by
  decide

/-- Claim C2 as amended: for every 200 body whose usage-metadata field is
absent, the returned ChatResponse has the empty usage mapping (so every
token count reads as its zero default), and its cost is 0.0 when the
configuration tracks cost and None otherwise; nothing is raised (the
decoding below is total). -/
theorem c2_missing_usage_defaults :
    ∀ (cfg : LLMConfig) (cands : List GeminiCandidate) (rtms : Nat) (model : String),
    (process_success_response cfg ⟨cands, none⟩ rtms model).usage = []
    ∧ (process_success_response cfg ⟨cands, none⟩ rtms model).cost
        = (if cfg.has_cost_tracking then some 0 else none) := by
  intro cfg cands rtms model
  refine ⟨rfl, ?_⟩
  by_cases h : cfg.has_cost_tracking <;>
    simp [process_success_response, calculate_actual_cost, usageOf, usageGet, h]

/-- Claim C3: for every non-2xx vendor response, handle_error_response
(through which send_chat_request raises) produces exactly the shared error
kind the status selects — LLMConfigurationError for 401 and 403,
LLMQuotaExceededError for 429, LLMProviderError for every other status —
and when the error body is not valid JSON the parsed error message falls
back to the HTTP-status-and-raw-text form; the decoding is total, so no
secondary exception escapes. -/
theorem c3_error_taxonomy :
    ∀ (status : Nat) (body : ErrorParse),
    status < 200 ∨ 300 ≤ status →
    ((status = 401 ∨ status = 403) →
      ∃ m, handle_error_response status body = LLMError.configurationError m)
    ∧ (status = 429 →
      ∃ m, handle_error_response status body = LLMError.quotaExceededError m)
    ∧ (status ≠ 401 → status ≠ 403 → status ≠ 429 →
      ∃ m p c, handle_error_response status body = LLMError.providerError m p c)
    ∧ ∀ text : String,
        errorMessageOf status (ErrorParse.notJson text)
          = "HTTP " ++ toString status ++ ": " ++ text := by
  intro status body _
  refine ⟨?_, ?_, ?_, fun text => rfl⟩
  · intro h
    rcases h with h | h <;> subst h <;> exact ⟨_, rfl⟩
  · intro h
    subst h
    exact ⟨_, rfl⟩
  · intro h1 h2 h3
    have hor : ¬(status = 401 ∨ status = 403) := by
      rintro (h | h)
      · exact h1 h
      · exact h2 h
    by_cases h4 : status = 400
    · subst h4
      exact ⟨_, _, _, rfl⟩
    · simp only [handle_error_response, if_neg hor, if_neg h3, if_neg h4]
      exact ⟨_, _, _, rfl⟩

/-- Claim C3, witness: the taxonomy at the concrete non-2xx status 500
with a non-JSON error body. -/
theorem c3_error_taxonomy_witness :
    ((500 = 401 ∨ 500 = 403) →
      ∃ m, handle_error_response 500 (ErrorParse.notJson "upstream broke")
        = LLMError.configurationError m)
    ∧ (500 = 429 →
      ∃ m, handle_error_response 500 (ErrorParse.notJson "upstream broke")
        = LLMError.quotaExceededError m)
    ∧ (500 ≠ 401 → 500 ≠ 403 → 500 ≠ 429 →
      ∃ m p c, handle_error_response 500 (ErrorParse.notJson "upstream broke")
        = LLMError.providerError m p c)
    ∧ ∀ text : String,
        errorMessageOf 500 (ErrorParse.notJson text)
          = "HTTP " ++ toString 500 ++ ": " ++ text :=
  c3_error_taxonomy 500 (ErrorParse.notJson "upstream broke") (Or.inr (by norm_num))

/-- Claim C4: the translated contents list has one entry per message, in
order, each carrying the role mapped by the fixed policy (assistant to
model, user and system to user); the payload embeds that list under the
contents key; and the concrete message list system, user, assistant
translates to the roles user, user, model in that order. -/
theorem c4_role_mapping :
    ∀ (msgs : List ChatMessage) (req : ChatRequest) (cfg : LLMConfig),
    (contentsOf msgs).length = msgs.length
    ∧ (contentsOf msgs).map contentRole
        = msgs.map (fun m => some (JValue.jstr (geminiRole m.role)))
    ∧ geminiRole ChatRole.assistant = "model"
    ∧ geminiRole ChatRole.user = "user"
    ∧ geminiRole ChatRole.system = "user"
    ∧ lookupJ (buildPayloadBase req cfg) "contents"
        = some (JValue.jarr (contentsOf req.messages))
    ∧ (contentsOf
        [⟨ChatRole.system, "You are terse."⟩, ⟨ChatRole.user, "Hi"⟩,
          ⟨ChatRole.assistant, "Hello"⟩]).map contentRole
        = [some (JValue.jstr "user"), some (JValue.jstr "user"),
           some (JValue.jstr "model")] := by
  intro msgs req cfg
  have hrole : ∀ m : ChatMessage,
      contentRole (messageToContent m) = some (JValue.jstr (geminiRole m.role)) :=
    fun m => rfl
  refine ⟨by simp [contentsOf], ?_, rfl, rfl, rfl, ?_, rfl⟩
  · induction msgs with
    | nil => rfl
    | cons m rest ih =>
        simp only [contentsOf, List.map_cons] at ih ⊢
        rw [hrole m, ih]
  · by_cases h : (genConfigOf req cfg).isEmpty <;> simp [buildPayloadBase, lookupJ, h]

/-- Claim C7: in the generation config, temperature comes from the request
first, the configured model_parameters second, and is otherwise absent;
likewise maxOutputTokens from max_tokens; the generationConfig key itself
is omitted when that config is empty; and extra_params is shallow-merged
last, so a key it carries overrides whatever the derived payload held for
that key. -/
theorem c7_generation_parameters :
    ∀ (req : ChatRequest) (cfg : LLMConfig) (k : String),
    lookupJ (genConfigOf req cfg) "temperature"
        = ((req.temperature <|> cfg.model_parameters.temperature).map JValue.jnum)
    ∧ lookupJ (genConfigOf req cfg) "maxOutputTokens"
        = ((req.max_tokens <|> cfg.model_parameters.max_tokens).map
            fun m => JValue.jnum (m : ℚ))
    ∧ lookupJ (buildPayloadBase req cfg) "generationConfig"
        = (if (genConfigOf req cfg).isEmpty then none
           else some (JValue.jobj (genConfigOf req cfg)))
    ∧ lookupJ (buildPayload req cfg) k
        = (lookupLast req.extra_params k <|> lookupJ (buildPayloadBase req cfg) k) := by
  intro req cfg k
  refine ⟨?_, ?_, ?_, lookupJ_updateObj req.extra_params (buildPayloadBase req cfg) k⟩
  · cases hrt : req.temperature <;> cases hct : cfg.model_parameters.temperature <;>
      cases hrm : req.max_tokens <;> cases hcm : cfg.model_parameters.max_tokens <;>
      simp [genConfigOf, lookupJ, hrt, hct, hrm, hcm]
  · cases hrt : req.temperature <;> cases hct : cfg.model_parameters.temperature <;>
      cases hrm : req.max_tokens <;> cases hcm : cfg.model_parameters.max_tokens <;>
      simp [genConfigOf, lookupJ, hrt, hct, hrm, hcm]
  · by_cases h : (genConfigOf req cfg).isEmpty <;> simp [buildPayloadBase, lookupJ, h]

theorem streamLoop_terminal :
    ∀ (cfg : LLMConfig) (model : String) (payload : JObj) (rtms : Nat)
      (lines : List RawLine) (acc : String),
    hasFinishLine lines = true →
    ∃ c : StreamChunk,
      (streamLoop cfg model payload rtms lines acc).getLast? = some c
      ∧ c.is_final = true ∧ c.content = ""
      ∧ c.usage.isSome = true ∧ c.cost.isSome = true ∧ c.response_time_ms.isSome = true
      ∧ (streamLoop cfg model payload rtms lines acc).countP (fun ch => ch.is_final) = 1 := by
  intro cfg model payload rtms lines
  induction lines with
  | nil => intro acc h; simp [hasFinishLine] at h
  | cons l rest ih =>
    intro acc h
    cases l with
    | blank =>
        have h2 : hasFinishLine rest = true := by simpa [hasFinishLine] using h
        simpa [streamLoop] using ih acc h2
    | malformed =>
        have h2 : hasFinishLine rest = true := by simpa [hasFinishLine] using h
        simpa [streamLoop] using ih acc h2
    | valid body =>
        cases hf : isFinishChunk body with
        | true =>
          by_cases hd : extractText body = ""
          · refine ⟨finalChunkOf cfg model payload rtms body acc,
              ?_, rfl, rfl, rfl, rfl, rfl, ?_⟩
            · simp [streamLoop, hf, hd]
            · simp [streamLoop, hf, hd, List.countP_cons, finalChunkOf]
          · refine ⟨finalChunkOf cfg model payload rtms body (acc ++ extractText body),
              ?_, rfl, rfl, rfl, rfl, rfl, ?_⟩
            · simp [streamLoop, hf, hd]
            · simp [streamLoop, hf, hd, List.countP_cons, deltaChunk, finalChunkOf]
        | false =>
          have h2 : hasFinishLine rest = true := by simpa [hasFinishLine, hf] using h
          by_cases hd : extractText body = ""
          · obtain ⟨c, hlast, h1, hc1, hu, hco, hr, hcount⟩ := ih acc h2
            refine ⟨c, ?_, h1, hc1, hu, hco, hr, ?_⟩
            · simpa [streamLoop, hf, hd] using hlast
            · simpa [streamLoop, hf, hd] using hcount
          · obtain ⟨c, hlast, h1, hc1, hu, hco, hr, hcount⟩ := ih (acc ++ extractText body) h2
            have hne : streamLoop cfg model payload rtms rest (acc ++ extractText body) ≠ [] := by
              intro he
              rw [he] at hlast
              simp at hlast
            have hout : streamLoop cfg model payload rtms (RawLine.valid body :: rest) acc
                = [deltaChunk (extractText body) model]
                  ++ streamLoop cfg model payload rtms rest (acc ++ extractText body) := by
              simp [streamLoop, hf, hd]
            refine ⟨c, ?_, h1, hc1, hu, hco, hr, ?_⟩
            · rw [hout, List.getLast?_append_of_ne_nil _ hne]
              exact hlast
            · rw [hout]
              simpa [List.countP_cons, deltaChunk] using hcount

/-- Claim C5: for every streaming call that completes normally (its body
has a line carrying a finishReason), the emitted sequence has exactly one
chunk with is_final true, that chunk is the last one, its content is the
empty string, and it carries usage, cost and response_time_ms. -/
theorem c5_terminal_chunk :
    ∀ (cfg : LLMConfig) (req : ChatRequest) (lines : List RawLine) (rtms : Nat),
    validate_configuration cfg = none →
    hasFinishLine lines = true →
    ∃ (chunks : List StreamChunk) (c : StreamChunk),
      stream_chat_request cfg req lines rtms = Except.ok chunks
      ∧ chunks.getLast? = some c
      ∧ c.is_final = true ∧ c.content = ""
      ∧ c.usage.isSome = true ∧ c.cost.isSome = true ∧ c.response_time_ms.isSome = true
      ∧ chunks.countP (fun ch => ch.is_final) = 1 := by
  intro cfg req lines rtms hv hf
  obtain ⟨c, hlast, h1, h2, h3, h4, h5, hcount⟩ :=
    streamLoop_terminal cfg (modelOf req cfg) (buildPayload req cfg) rtms lines "" hf
  exact ⟨_, c, by simp [stream_chat_request, hv], hlast, h1, h2, h3, h4, h5, hcount⟩

/-- Claim C5, witness: the terminal-chunk shape on a concrete mocked
stream of a delta line, a blank line, a malformed line and a finish line. -/
theorem c5_terminal_chunk_witness :
    ∃ (chunks : List StreamChunk) (c : StreamChunk),
      stream_chat_request cfgTracked reqHello linesHello 7 = Except.ok chunks
      ∧ chunks.getLast? = some c
      ∧ c.is_final = true ∧ c.content = ""
      ∧ c.usage.isSome = true ∧ c.cost.isSome = true ∧ c.response_time_ms.isSome = true
      ∧ chunks.countP (fun ch => ch.is_final) = 1 :=
  c5_terminal_chunk cfgTracked reqHello linesHello 7 rfl rfl

theorem nonFinalContent_streamLoop :
    ∀ (cfg : LLMConfig) (model : String) (payload : JObj) (rtms : Nat)
      (lines : List RawLine) (acc : String),
    nonFinalContent (streamLoop cfg model payload rtms lines acc) = streamTextOf lines := by
  intro cfg model payload rtms lines
  induction lines with
  | nil => intro acc; rfl
  | cons l rest ih =>
    intro acc
    cases l with
    | blank => simpa [streamLoop, streamTextOf] using ih acc
    | malformed => simpa [streamLoop, streamTextOf] using ih acc
    | valid body =>
      cases hf : isFinishChunk body with
      | true =>
        by_cases hd : extractText body = ""
        · simp [streamLoop, streamTextOf, hf, hd, nonFinalContent, finalChunkOf]
        · simp [streamLoop, streamTextOf, hf, hd, nonFinalContent, finalChunkOf, deltaChunk]
      | false =>
        by_cases hd : extractText body = ""
        · simpa [streamLoop, streamTextOf, hf, hd] using ih acc
        · have hrest := ih (acc ++ extractText body)
          simp [streamLoop, streamTextOf, hf, hd, nonFinalContent, deltaChunk, hrest]

/-- Claim C6: with a fixed mocked vendor response — streaming lines whose
accumulated text equals the text of the unary body — concatenating the
content of all non-terminal chunks of stream_chat_request, in emission
order, equals the content of the ChatResponse send_chat_request returns. -/
theorem c6_stream_matches_unary :
    ∀ (cfg : LLMConfig) (req : ChatRequest) (lines : List RawLine) (body : GeminiBody)
      (rtms1 rtms2 : Nat),
    validate_configuration cfg = none →
    streamTextOf lines = extractText body →
    ∃ (chunks : List StreamChunk) (resp : ChatResponse),
      stream_chat_request cfg req lines rtms1 = Except.ok chunks
      ∧ send_chat_request cfg req (HttpOutcome.success body) rtms2 = Except.ok resp
      ∧ nonFinalContent chunks = resp.content := by
  intro cfg req lines body rtms1 rtms2 hv he
  refine ⟨streamLoop cfg (modelOf req cfg) (buildPayload req cfg) rtms1 lines "",
    process_success_response cfg body rtms2 (modelOf req cfg), ?_, ?_, ?_⟩
  · simp [stream_chat_request, hv]
  · simp [send_chat_request, hv]
  · rw [nonFinalContent_streamLoop]
    exact he

/-- Claim C6, witness: a mocked two-line stream with deltas Hel and lo
against a mocked unary body with text Hello. -/
theorem c6_stream_matches_unary_witness :
    ∃ (chunks : List StreamChunk) (resp : ChatResponse),
      stream_chat_request cfgTracked reqHello [lineHel, lineLoFinish] 3 = Except.ok chunks
      ∧ send_chat_request cfgTracked reqHello (HttpOutcome.success bodyHello) 4
          = Except.ok resp
      ∧ nonFinalContent chunks = resp.content :=
  c6_stream_matches_unary cfgTracked reqHello [lineHel, lineLoFinish] bodyHello 3 4 rfl
    (by decide)

/-- Claim C8: a line that is not valid JSON, sandwiched between two
well-formed chunk lines, changes nothing: the loop yields exactly what it
yields without the malformed line, and in particular the chunks decoded
from the two well-formed lines are emitted in their original order; the
skip is silent (the loop is total, nothing is raised). -/
theorem c8_malformed_line_skipped :
    ∀ (cfg : LLMConfig) (model : String) (payload : JObj) (rtms : Nat)
      (b1 b2 : GeminiBody) (rest : List RawLine) (acc : String),
    isFinishChunk b1 = false → isFinishChunk b2 = false →
    extractText b1 ≠ "" → extractText b2 ≠ "" →
    streamLoop cfg model payload rtms
        (RawLine.valid b1 :: RawLine.malformed :: RawLine.valid b2 :: rest) acc
      = streamLoop cfg model payload rtms
          (RawLine.valid b1 :: RawLine.valid b2 :: rest) acc
    ∧ streamLoop cfg model payload rtms
        (RawLine.valid b1 :: RawLine.malformed :: RawLine.valid b2 :: rest) acc
      = deltaChunk (extractText b1) model :: deltaChunk (extractText b2) model
          :: streamLoop cfg model payload rtms rest ((acc ++ extractText b1) ++ extractText b2) := by
  intro cfg model payload rtms b1 b2 rest acc hf1 hf2 hd1 hd2
  constructor <;> simp [streamLoop, hf1, hf2, hd1, hd2]

/-- Claim C8, witness: the sandwich at two concrete chunk lines with
deltas Hel and lo. -/
theorem c8_malformed_line_skipped_witness :
    streamLoop cfgTracked "gemini-2.5-flash" [] 2
        (RawLine.valid bodyHel :: RawLine.malformed :: RawLine.valid bodyLo :: []) ""
      = streamLoop cfgTracked "gemini-2.5-flash" [] 2
          (RawLine.valid bodyHel :: RawLine.valid bodyLo :: []) ""
    ∧ streamLoop cfgTracked "gemini-2.5-flash" [] 2
        (RawLine.valid bodyHel :: RawLine.malformed :: RawLine.valid bodyLo :: []) ""
      = deltaChunk (extractText bodyHel) "gemini-2.5-flash"
          :: deltaChunk (extractText bodyLo) "gemini-2.5-flash"
          :: streamLoop cfgTracked "gemini-2.5-flash" [] 2 []
              (("" ++ extractText bodyHel) ++ extractText bodyLo) :=
  c8_malformed_line_skipped cfgTracked "gemini-2.5-flash" [] 2 bodyHel bodyLo [] ""
    rfl rfl (by decide) (by decide)

/-- Claim C10: every chunk the streaming loop emits with is_final false
has non-empty content — a decoded line whose text delta is empty or
absent is consumed without emitting a chunk. -/
theorem c10_nonfinal_chunks_nonempty :
    ∀ (cfg : LLMConfig) (model : String) (payload : JObj) (rtms : Nat)
      (lines : List RawLine) (acc : String) (c : StreamChunk),
    c ∈ streamLoop cfg model payload rtms lines acc →
    c.is_final = false → c.content ≠ "" := by
  intro cfg model payload rtms lines
  induction lines with
  | nil => intro acc c hc; simp [streamLoop] at hc
  | cons l rest ih =>
    intro acc c hc hfin
    cases l with
    | blank => exact ih acc c (by simpa [streamLoop] using hc) hfin
    | malformed => exact ih acc c (by simpa [streamLoop] using hc) hfin
    | valid body =>
      cases hf : isFinishChunk body with
      | true =>
        by_cases hd : extractText body = ""
        · have hc2 : c = finalChunkOf cfg model payload rtms body acc := by
            simpa [streamLoop, hf, hd] using hc
          rw [hc2] at hfin
          simp [finalChunkOf] at hfin
        · have hc2 : c = deltaChunk (extractText body) model
              ∨ c = finalChunkOf cfg model payload rtms body (acc ++ extractText body) := by
            simpa [streamLoop, hf, hd] using hc
          rcases hc2 with hc2 | hc2
          · rw [hc2]
            simpa [deltaChunk] using hd
          · rw [hc2] at hfin
            simp [finalChunkOf] at hfin
      | false =>
        by_cases hd : extractText body = ""
        · exact ih acc c (by simpa [streamLoop, hf, hd] using hc) hfin
        · have hc2 : c = deltaChunk (extractText body) model
              ∨ c ∈ streamLoop cfg model payload rtms rest (acc ++ extractText body) := by
            simpa [streamLoop, hf, hd] using hc
          rcases hc2 with hc2 | hc2
          · rw [hc2]
            simpa [deltaChunk] using hd
          · exact ih (acc ++ extractText body) c hc2 hfin

/-- Claim C10, witness: the one non-terminal chunk of a concrete stream
has non-empty content. -/
theorem c10_nonfinal_chunks_nonempty_witness :
    (deltaChunk "Hel" "gemini-2.5-flash").content ≠ "" :=
  c10_nonfinal_chunks_nonempty cfgTracked "gemini-2.5-flash" [] 0
    [RawLine.valid bodyHel] "" (deltaChunk "Hel" "gemini-2.5-flash") (by decide) rfl

/-- Claim C9, counterexample: with cost tracking on, a positive output
price and a request carrying the negative max_tokens -4 over an empty
message, estimate_cost returns a negative float, because the estimated
output tokens are min of max_tokens and half the input estimate and the
negative budget flows straight into the price product. -/
theorem c9_counterexample :
    estimate_cost cfgOutPrice reqNegMax = some (-(1 / 250))
    ∧ (-(1 / 250) : ℚ) < 0 := by
  constructor
  · have h1 : estimate_cost cfgOutPrice reqNegMax
        = some (calculate_request_cost cfgOutPrice 0 (-4)) := by
      simp [estimate_cost, cfgOutPrice, reqNegMax, effectiveMaxTokens, min_def]
    have h2 : calculate_request_cost cfgOutPrice 0 (-4) = -(1 / 250) := by
      norm_num [calculate_request_cost, cfgOutPrice]
    rw [h1, h2]
  · norm_num

/-- Claim C9 as amended: estimate_cost returns None when the
cost-tracking flag of the configuration is false; when the flag is true it
returns a float, which is non-negative whenever the configured per-token
prices are non-negative and the effective max-token budget (the
max_tokens of the request, or the configured default, or 1000) is
non-negative; the function is total, so it returns rather than raising in
all cases. -/
theorem c9_estimate_cost_sign :
    ∀ (cfg : LLMConfig) (req : ChatRequest),
    (cfg.has_cost_tracking = false → estimate_cost cfg req = none)
    ∧ (cfg.has_cost_tracking = true → 0 ≤ cfg.price_input → 0 ≤ cfg.price_output →
        0 ≤ effectiveMaxTokens cfg req →
        ∃ q : ℚ, estimate_cost cfg req = some q ∧ 0 ≤ q) := by
  intro cfg req
  constructor
  · intro h
    simp [estimate_cost, h]
  · intro ht hpi hpo hmax
    have hmain : estimate_cost cfg req = some (calculate_request_cost cfg
        (((req.messages.map fun m => m.content.length).sum / 4 : Nat) : Int)
        (min (effectiveMaxTokens cfg req)
          (((req.messages.map fun m => m.content.length).sum / 4 / 2 : Nat) : Int))) := by
      simp [estimate_cost, ht]
    refine ⟨_, hmain, ?_⟩
    unfold calculate_request_cost
    apply add_nonneg
    · apply mul_nonneg _ hpi
      exact_mod_cast Int.natCast_nonneg _
    · apply mul_nonneg _ hpo
      have hb : (0 : Int) ≤ min (effectiveMaxTokens cfg req)
          (((req.messages.map fun m => m.content.length).sum / 4 / 2 : Nat) : Int) :=
        le_min hmax (Int.natCast_nonneg _)
      exact_mod_cast hb

/-- Claim C9, witness: the amended statement at a concrete tracked
configuration and request. -/
theorem c9_estimate_cost_sign_witness :
    ∃ q : ℚ, estimate_cost cfgTracked reqHello = some q ∧ 0 ≤ q :=
  (c9_estimate_cost_sign cfgTracked reqHello).2 rfl (by norm_num [cfgTracked])
    (by norm_num [cfgTracked]) (by decide)
